import Mathlib

/-!
Shallow embedding of the cloud-orchestration layer of the EBS CSI driver
(`pkg/cloud/cloud.go`). The EC2 transport is modelled as an environment of
response oracles: a loop's i-th provider call receives the environment's
response at index i. Machine integers (Go `int64`) are modelled as `Int`;
Go `nil` pointers are `Option`; a Go `panic` (nil dereference, failed type
assertion, index out of range) is the `RunResult.panicked` outcome.
-/

set_option autoImplicit false

/-- An AWS service error as seen through `awserr.Error` (a code string and a
message), the shape inspected by `isAWSError` (cloud.go:1004). -/
structure AwsError where
  code : String
  msg : String := ""
deriving DecidableEq, Repr

/-- The domain errors of cloud.go:103-124 together with the two ways the code
returns other errors: `raw` (the provider error returned as-is, `return nil,
err`) and `wrapped`/`message` (`fmt.Errorf` with / without an inner provider
error). `waitTimeout` is `wait.ErrWaitTimeout` from an exhausted poll. -/
inductive CloudError where
  | errMultiDisks
  | errDiskExistsDiffSize
  | errNotFound
  | errAlreadyExists
  | errMultiSnapshots
  | errInvalidMaxResults
  | raw (e : AwsError)
  | wrapped (ctx : String) (e : AwsError)
  | message (s : String)
  | waitTimeout
deriving DecidableEq, Repr

/-- Outcome of running one facade operation: a value, a returned error, or a
Go runtime panic. -/
inductive RunResult (α : Type) where
  | ok (a : α)
  | err (e : CloudError)
  | panicked
deriving DecidableEq, Repr

/-- `aws.StringValue`: dereference an optional string, `""` for nil. -/
def stringValue (o : Option String) : String := o.getD ""

/-- `aws.Int64Value`: dereference an optional int64, `0` for nil. -/
def int64Value (o : Option Int) : Int := o.getD 0

/-- Modelled from the spec: `util.GiB` (pkg/util is not under src/), the
number of bytes in one GiB. -/
def giBBytes : Int := 1073741824

/-- Modelled from the spec: `util.BytesToGiB` (pkg/util is not under src/),
"capacity in bytes" converted to whole GiB, truncating (Go integer division
rounds toward zero). -/
def bytesToGiB (volumeSizeBytes : Int) : Int := Int.tdiv volumeSizeBytes giBBytes

/-- Modelled from the spec: `util.RoundUpGiB` (pkg/util is not under src/),
"rounds the requested size up to whole GiB". -/
def roundUpGiB (volumeSizeBytes : Int) : Int :=
  Int.tdiv (volumeSizeBytes + giBBytes - 1) giBBytes

/-- Modelled from the spec: `util.GiBToBytes` (pkg/util is not under src/),
"Size (bytes, derived from the provider's GiB size)". -/
def giBToBytes (volumeSizeGiB : Int) : Int := volumeSizeGiB * giBBytes

/-- `isAWSError` (cloud.go:1004): the error is AWS-shaped and carries the
given code. In the model every transport error is AWS-shaped. -/
def isAWSError (e : AwsError) (code : String) : Bool := e.code = code

/-- cloud.go:1016 -/
def isAWSErrorIncorrectModification (e : AwsError) : Bool :=
  isAWSError e "IncorrectModificationState"

/-- cloud.go:1023 -/
def isAWSErrorInstanceNotFound (e : AwsError) : Bool :=
  isAWSError e "InvalidInstanceID.NotFound"

/-- cloud.go:1030 -/
def isAWSErrorVolumeNotFound (e : AwsError) : Bool :=
  isAWSError e "InvalidVolume.NotFound"

/-- cloud.go:1037 -/
def isAWSErrorIncorrectState (e : AwsError) : Bool :=
  isAWSError e "IncorrectState"

/-- cloud.go:1044 -/
def isAWSErrorInvalidAttachmentNotFound (e : AwsError) : Bool :=
  isAWSError e "InvalidAttachment.NotFound"

/-- cloud.go:1051 -/
def isAWSErrorSnapshotNotFound (e : AwsError) : Bool :=
  isAWSError e "InvalidSnapshot.NotFound"

/-- One element of `ec2.Volume.Attachments`; only the `State` field is read
by the code under verification. -/
structure VolumeAttachment where
  state : Option String := none
deriving DecidableEq, Repr

/-- The fields of `ec2.Volume` read by cloud.go (pointers become `Option`). -/
structure Volume where
  volumeId : Option String := none
  size : Option Int := none
  availabilityZone : Option String := none
  snapshotId : Option String := none
  state : Option String := none
  attachments : List VolumeAttachment := []
deriving DecidableEq, Repr

/-- One page of `ec2.DescribeVolumesOutput`. -/
structure DescribeVolumesOutput where
  volumes : List Volume := []
  nextToken : Option String := none
deriving DecidableEq, Repr

/-- The pagination loop of `getVolume` (cloud.go:866-877): call
DescribeVolumes repeatedly, accumulating `Volumes`, until `NextToken` is
empty; a provider error terminates the loop and is returned as-is. `fuel`
bounds the model's recursion only; `none` means the environment kept
returning non-empty tokens past the fuel (the Go loop would still be
running). -/
def getVolumeLoop (t : Nat → Except AwsError DescribeVolumesOutput) :
    Nat → Nat → List Volume → Option (Except CloudError (List Volume))
  | 0, _, _ => none
  | fuel + 1, call, acc =>
    match t call with
    | .error e => some (.error (.raw e))
    | .ok out =>
      if stringValue out.nextToken = "" then some (.ok (acc ++ out.volumes))
      else getVolumeLoop t fuel (call + 1) (acc ++ out.volumes)

/-- `getVolume` (cloud.go:862-886): drain all pages, then demand exactly one
volume: more than one is `ErrMultiDisks`, zero is `ErrNotFound`. -/
def getVolume (t : Nat → Except AwsError DescribeVolumesOutput) (fuel : Nat) :
    Option (Except CloudError Volume) :=
  match getVolumeLoop t fuel 0 [] with
  | none => none
  | some (.error e) => some (.error e)
  | some (.ok volumes) =>
    if volumes.length > 1 then some (.error .errMultiDisks)
    else
      match volumes with
      | [] => some (.error .errNotFound)
      | v :: _ => some (.ok v)

/-- The fields of `ec2.VolumeModification` read by cloud.go. -/
structure VolumeModification where
  modificationState : Option String := none
  targetSize : Option Int := none
deriving DecidableEq, Repr

/-- `ec2.DescribeVolumesModificationsOutput`. -/
structure DescribeVolumesModificationsOutput where
  volumesModifications : List VolumeModification := []
deriving DecidableEq, Repr

/-- `ec2.ModifyVolumeOutput`; `VolumeModification` is a nullable pointer. -/
structure ModifyVolumeOutput where
  volumeModification : Option VolumeModification := none
deriving DecidableEq, Repr

/-- `getLatestVolumeModification` (cloud.go:1140-1157): one
DescribeVolumesModifications call; a provider error is wrapped, an empty
modification list is an error, otherwise the last element is returned. -/
def getLatestVolumeModification
    (resp : Except AwsError DescribeVolumesModificationsOutput) :
    Except CloudError VolumeModification :=
  match resp with
  | .error e => .error (.wrapped "error describing modifications in volume" e)
  | .ok out =>
    match out.volumesModifications.getLast? with
    | none => .error (.message "could not find any modifications for volume")
    | some m => .ok m

/-- The terminal-state test of cloud.go:1101 and 1124: the modification
state string is "completed" or "optimizing". -/
def volumeModificationDone (m : VolumeModification) : Bool :=
  stringValue m.modificationState = "completed" ||
    stringValue m.modificationState = "optimizing"

/-- The poll body of `waitForVolumeSize` (cloud.go:1117-1130) run under
`wait.ExponentialBackoff`: at most `steps` probes, each fetching the latest
modification (the i-th probe consumes the environment's response at index
`call + i`); a probe error is propagated at once; a terminal state returns
the modification's target size; exhausting the steps is `ErrWaitTimeout`. -/
def waitForVolumeSizeLoop
    (t : Nat → Except AwsError DescribeVolumesModificationsOutput) :
    Nat → Nat → Except CloudError Int
  | 0, _ => .error .waitTimeout
  | steps + 1, call =>
    match getLatestVolumeModification (t call) with
    | .error e => .error e
    | .ok m =>
      if volumeModificationDone m then .ok (int64Value m.targetSize)
      else waitForVolumeSizeLoop t steps (call + 1)

/-- `waitForVolumeSize` (cloud.go:1109-1137): the backoff schedule is
{1s, x1.8, Steps = 20}, so at most 20 probes. `call` is the index of the
next DescribeVolumesModifications response in the environment. -/
def waitForVolumeSize
    (t : Nat → Except AwsError DescribeVolumesModificationsOutput)
    (call : Nat) : Except CloudError Int :=
  waitForVolumeSizeLoop t 20 call

/-- Lift a Go `(value, err)` return into a `RunResult`. -/
def exceptToRun {α : Type} : Except CloudError α → RunResult α
  | .ok a => .ok a
  | .error e => .err e

/-- The environment of provider responses consumed by one `ResizeDisk` call:
the DescribeVolumes pages of the initial `getVolume`, the single
ModifyVolume response, and the DescribeVolumesModifications responses
consumed (in order) by `getLatestVolumeModification` and
`waitForVolumeSize`. -/
structure ResizeEnv where
  describeVolumes : Nat → Except AwsError DescribeVolumesOutput
  modifyVolume : Except AwsError ModifyVolumeOutput
  describeModifications : Nat → Except AwsError DescribeVolumesModificationsOutput

/-- cloud.go:1100-1105 with `mod` already known non-nil: return the target
size if the modification is terminal, otherwise fall into
`waitForVolumeSize`. `nextCall` is the index of the next
DescribeVolumesModifications response (1 when the in-flight-recovery fetch
already consumed index 0, else 0). -/
def resizeFromMod
    (t : Nat → Except AwsError DescribeVolumesModificationsOutput)
    (m : VolumeModification) (nextCall : Nat) : RunResult Int :=
  if volumeModificationDone m then .ok (int64Value m.targetSize)
  else exceptToRun (waitForVolumeSize t nextCall)

/-- cloud.go:1082-1105, everything after the early-return size check: issue
ModifyVolume; on an error other than `IncorrectModificationState` return it
wrapped; on `IncorrectModificationState` recover by fetching the latest
modification record; on success take `response.VolumeModification` — when
that pointer is nil, `aws.StringValue(mod.ModificationState)` at
cloud.go:1100 dereferences nil and panics. -/
def resizeAfterModify (env : ResizeEnv) : RunResult Int :=
  match env.modifyVolume with
  | .error e =>
    if ¬ isAWSErrorIncorrectModification e then
      .err (.wrapped "could not modify AWS volume" e)
    else
      match getLatestVolumeModification (env.describeModifications 0) with
      | .error e2 => .err e2
      | .ok m => resizeFromMod env.describeModifications m 1
  | .ok response =>
    match response.volumeModification with
    | none => .panicked
    | some m => resizeFromMod env.describeModifications m 0

/-- `ResizeDisk` (cloud.go:1057-1106), returning the result together with
the number of ModifyVolume calls issued. Fetch the volume; if its current
size already covers the rounded-up request, return the current size with no
modify call; otherwise issue exactly one modify call and continue in
`resizeAfterModify`. -/
def resizeDisk (env : ResizeEnv) (fuel : Nat) (newSizeBytes : Int) :
    Option (RunResult Int × Nat) :=
  match getVolume env.describeVolumes fuel with
  | none => none
  | some (.error e) => some (.err e, 0)
  | some (.ok volume) =>
    let newSizeGiB := roundUpGiB newSizeBytes
    let oldSizeGiB := int64Value volume.size
    if oldSizeGiB ≥ newSizeGiB then some (.ok oldSizeGiB, 0)
    else some (resizeAfterModify env, 1)

/-- `cloud.MinTotalIOPS` (cloud.go:72). -/
def MinTotalIOPS : Int := 100

/-- `cloud.MaxTotalIOPS` (cloud.go:74). -/
def MaxTotalIOPS : Int := 20000

/-- `cloud.DiskOptions` (cloud.go:135-146); the tag map is carried as an
association list. -/
structure DiskOptions where
  capacityBytes : Int := 0
  tags : List (String × String) := []
  volumeType : String := ""
  iopsPerGB : Int := 0
  availabilityZone : String := ""
  encrypted : Bool := false
  kmsKeyID : String := ""
  snapshotID : String := ""

/-- `cloud.Disk` (cloud.go:127-132). -/
structure Disk where
  volumeID : String := ""
  capacityGiB : Int := 0
  availabilityZone : String := ""
  snapshotID : String := ""
deriving DecidableEq, Repr

/-- The fields of `ec2.CreateVolumeInput` populated by `CreateDisk`
(cloud.go:485-502). -/
structure CreateVolumeInput where
  availabilityZone : Option String := none
  size : Option Int := none
  volumeType : Option String := none
  tags : List (String × String) := []
  encrypted : Option Bool := none
  kmsKeyId : Option String := none
  iops : Option Int := none
  snapshotId : Option String := none
deriving DecidableEq, Repr

/-- The volume-type switch of `CreateDisk` (cloud.go:446-462): pass gp2, st2
and standard through with no IOPS; for io1/io2 compute
`capacityGiB * IOPSPerGB` and clamp sequentially at `MinTotalIOPS` and
`MaxTotalIOPS`; default the empty string to gp2; reject anything else. -/
def createTypeAndIops (volumeType : String) (capacityGiB : Int)
    (iopsPerGB : Int) : Except CloudError (String × Int) :=
  if volumeType = "gp2" ∨ volumeType = "st2" ∨ volumeType = "standard" then
    .ok (volumeType, 0)
  else if volumeType = "io1" ∨ volumeType = "io2" then
    let iops0 := capacityGiB * iopsPerGB
    let iops1 := if iops0 < MinTotalIOPS then MinTotalIOPS else iops0
    let iops2 := if iops1 > MaxTotalIOPS then MaxTotalIOPS else iops1
    .ok (volumeType, iops2)
  else if volumeType = "" then .ok ("gp2", 0)
  else .error (.message "invalid AWS VolumeType")

/-- The zone-name loop of `randomAvailabilityZone` (cloud.go:1168-1171):
each `*zone.ZoneName` dereference panics (`none`) on a nil name. -/
def derefZoneNames : List (Option String) → Option (List String)
  | [] => some []
  | none :: _ => none
  | some z :: rest => (derefZoneNames rest).map (fun zs => z :: zs)

/-- `randomAvailabilityZone` (cloud.go:1161-1174): one
DescribeAvailabilityZones call. A provider error is returned as-is. The
zone-name loop dereferences each `ZoneName` pointer (panic on nil), and the
final `zones[0]` panics (index out of range) when the listing is empty;
otherwise the first zone name is returned. -/
def randomAvailabilityZone
    (resp : Except AwsError (List (Option String))) : RunResult String :=
  match resp with
  | .error e => .err (.raw e)
  | .ok azs =>
    match derefZoneNames azs with
    | none => .panicked
    | some zones =>
      match zones with
      | [] => .panicked
      | z :: _ => .ok z

/-- `CreateDisk` up to and including the construction of the
`ec2.CreateVolumeInput` it sends (cloud.go:439-503): validate the volume
type and compute IOPS, resolve the availability zone (falling back to
`randomAvailabilityZone` when the option is empty, wrapping its error), and
assemble the request; a key ID forces `Encrypted=true`, `Iops` is set only
when positive, `SnapshotId` only when non-empty. The send and the
wait-for-available poll (cloud.go:504-526) are beyond every claim about the
request and are not modelled here. -/
def createDiskRequest (opts : DiskOptions)
    (azResp : Except AwsError (List (Option String))) :
    RunResult CreateVolumeInput :=
  let capacityGiB := bytesToGiB opts.capacityBytes
  match createTypeAndIops opts.volumeType capacityGiB opts.iopsPerGB with
  | .error e => .err e
  | .ok (createType, iops) =>
    let zoneResult : RunResult String :=
      if opts.availabilityZone = "" then
        match randomAvailabilityZone azResp with
        | .ok z => .ok z
        | .err _ => .err (.message "failed to get availability zone")
        | .panicked => .panicked
      else .ok opts.availabilityZone
    match zoneResult with
    | .panicked => .panicked
    | .err e => .err e
    | .ok zone =>
      let req : CreateVolumeInput :=
        { availabilityZone := some zone
          size := some capacityGiB
          volumeType := some createType
          tags := opts.tags
          encrypted := some opts.encrypted }
      let req :=
        if opts.kmsKeyID.length > 0 then
          { req with kmsKeyId := some opts.kmsKeyID, encrypted := some true }
        else req
      let req := if iops > 0 then { req with iops := some iops } else req
      let req :=
        if opts.snapshotID.length > 0 then
          { req with snapshotId := some opts.snapshotID }
        else req
      .ok req

/-- `GetDiskByName` (cloud.go:668-694): the environment `t` supplies the
responses to the name-tag-filtered DescribeVolumes pages. After `getVolume`
demands exactly one match, the found volume's size (in GiB, the misnamed
`volSizeBytes`) must equal `util.BytesToGiB(capacityBytes)`; a mismatch is
`ErrDiskExistsDiffSize`, otherwise the `Disk` is assembled. -/
def getDiskByName (t : Nat → Except AwsError DescribeVolumesOutput)
    (fuel : Nat) (capacityBytes : Int) : Option (Except CloudError Disk) :=
  match getVolume t fuel with
  | none => none
  | some (.error e) => some (.error e)
  | some (.ok volume) =>
    let volSizeGiB := int64Value volume.size
    if volSizeGiB ≠ bytesToGiB capacityBytes then
      some (.error .errDiskExistsDiffSize)
    else
      some (.ok { volumeID := stringValue volume.volumeId
                  capacityGiB := volSizeGiB
                  availabilityZone := stringValue volume.availabilityZone
                  snapshotID := stringValue volume.snapshotId })

/-- `DeleteDisk` (cloud.go:529-538): a provider `InvalidVolume.NotFound` is
mapped to the bare `ErrNotFound` sentinel; any other provider error is
wrapped with operation context; success returns `true`. -/
def deleteDisk (resp : Except AwsError Unit) : Except CloudError Bool :=
  match resp with
  | .error e =>
    if isAWSErrorVolumeNotFound e then .error .errNotFound
    else .error (.wrapped "DeleteDisk could not delete volume" e)
  | .ok _ => .ok true

/-- `DeleteSnapshot` (cloud.go:752-763): a provider
`InvalidSnapshot.NotFound` is mapped to the bare `ErrNotFound` sentinel;
any other provider error is wrapped; success returns `true`. -/
def deleteSnapshot (resp : Except AwsError Unit) : Except CloudError Bool :=
  match resp with
  | .error e =>
    if isAWSErrorSnapshotNotFound e then .error .errNotFound
    else .error (.wrapped "DeleteSnapshot could not delete volume" e)
  | .ok _ => .ok true

/-- The fields of `ec2.Snapshot` read by cloud.go; `StartTime` is carried as
abstract time ticks. -/
structure Ec2Snapshot where
  snapshotId : Option String := none
  volumeId : Option String := none
  volumeSize : Option Int := none
  startTime : Option Int := none
  state : Option String := none
deriving DecidableEq, Repr

/-- `cloud.Snapshot` (cloud.go:149-155). -/
structure Snapshot where
  snapshotID : String := ""
  sourceVolumeID : String := ""
  size : Int := 0
  creationTime : Int := 0
  readyToUse : Bool := false
deriving DecidableEq, Repr

/-- `cloud.ListSnapshotsResponse` (cloud.go:158-161). -/
structure ListSnapshotsResponse where
  snapshots : List Snapshot := []
  nextToken : String := ""
deriving DecidableEq, Repr

/-- `ec2ListSnapshotsResponse` (cloud.go:169-172): one DescribeSnapshots
page as returned by the `listSnapshots` helper. -/
structure Ec2ListSnapshotsResponse where
  snapshots : List Ec2Snapshot := []
  nextToken : Option String := none
deriving DecidableEq, Repr

/-- `ec2SnapshotResponseToStruct` (cloud.go:842-860) on a non-nil snapshot:
sizes convert GiB to bytes, and `ReadyToUse` is true exactly when the state
string is "completed". -/
def ec2SnapshotResponseToStruct (s : Ec2Snapshot) : Snapshot :=
  { snapshotID := stringValue s.snapshotId
    sourceVolumeID := stringValue s.volumeId
    size := giBToBytes (int64Value s.volumeSize)
    creationTime := s.startTime.getD 0
    readyToUse := stringValue s.state = "completed" }

/-- `ListSnapshots` (cloud.go:801-839), returning the result together with
the number of DescribeSnapshots calls issued. A `maxResults` that is
positive and below 5 is rejected with `ErrInvalidMaxResults` before any
provider call; otherwise a single page is fetched (`listSnapshots`,
cloud.go:950, whose provider error passes through as-is), each snapshot is
mapped, and an empty page is `ErrNotFound`. -/
def listSnapshotsOp (resp : Except AwsError Ec2ListSnapshotsResponse)
    (maxResults : Int) : Except CloudError ListSnapshotsResponse × Nat :=
  if maxResults > 0 ∧ maxResults < 5 then (.error .errInvalidMaxResults, 0)
  else
    match resp with
    | .error e => (.error (.raw e), 1)
    | .ok page =>
      let snapshots := page.snapshots.map ec2SnapshotResponseToStruct
      if snapshots.isEmpty then (.error .errNotFound, 1)
      else
        (.ok { snapshots := snapshots, nextToken := stringValue page.nextToken }, 1)

/-- The fields of `ec2.Instance` the attach path needs (none are read by
the code under verification beyond existence). -/
structure Ec2Instance where
  instanceId : Option String := none
deriving DecidableEq, Repr

/-- `ec2.Reservation`. -/
structure Reservation where
  instances : List Ec2Instance := []
deriving DecidableEq, Repr

/-- One page of `ec2.DescribeInstancesOutput`. -/
structure DescribeInstancesOutput where
  reservations : List Reservation := []
  nextToken : Option String := none
deriving DecidableEq, Repr

/-- The pagination loop of `getInstance` (cloud.go:895-913): an
`InvalidInstanceID.NotFound` error is `ErrNotFound`, any other provider
error is wrapped; instances of every reservation on every page are
accumulated until `NextToken` is empty. `none` again means the environment
outlived the model's fuel. -/
def getInstanceLoop (t : Nat → Except AwsError DescribeInstancesOutput) :
    Nat → Nat → List Ec2Instance → Option (Except CloudError (List Ec2Instance))
  | 0, _, _ => none
  | fuel + 1, call, acc =>
    match t call with
    | .error e =>
      if isAWSErrorInstanceNotFound e then some (.error .errNotFound)
      else some (.error (.wrapped "error listing AWS instances" e))
    | .ok out =>
      let acc2 := acc ++ (out.reservations.map Reservation.instances).flatten
      if stringValue out.nextToken = "" then some (.ok acc2)
      else getInstanceLoop t fuel (call + 1) acc2

/-- `getInstance` (cloud.go:888-922): drain pages, then demand exactly one
instance: more than one is a formatted error, zero is `ErrNotFound`. -/
def getInstance (t : Nat → Except AwsError DescribeInstancesOutput)
    (fuel : Nat) : Option (Except CloudError Ec2Instance) :=
  match getInstanceLoop t fuel 0 [] with
  | none => none
  | some (.error e) => some (.error e)
  | some (.ok instances) =>
    if instances.length > 1 then
      some (.error (.message "found multiple instances with ID"))
    else
      match instances with
      | [] => some (.error .errNotFound)
      | i :: _ => some (.ok i)

/-- The single-probe body of `WaitForAttachmentState` (cloud.go:635-663):
true when the attachment list is empty and the target is "detached", or
when some attachment whose `State` is non-nil equals the target (nil states
are skipped with a warning). -/
def attachmentStateReached (state : String) (v : Volume) : Bool :=
  (v.attachments.isEmpty && state = "detached") ||
    v.attachments.any (fun a =>
      match a.state with
      | none => false
      | some s => s = state)

/-- The poll loop of `WaitForAttachmentState` (cloud.go:624-665) under
`wait.ExponentialBackoff` {1s, x1.8, Steps = 13}: at most `steps` probes,
the i-th probe running a full paginated `getVolume` against the
environment's response row `t (iter + i)`; a probe error is propagated at
once; exhausting the steps is `ErrWaitTimeout`. -/
def waitForAttachmentStateLoop
    (t : Nat → Nat → Except AwsError DescribeVolumesOutput) (fuel : Nat)
    (state : String) : Nat → Nat → Option (Except CloudError Unit)
  | 0, _ => some (.error .waitTimeout)
  | steps + 1, iter =>
    match getVolume (t iter) fuel with
    | none => none
    | some (.error e) => some (.error e)
    | some (.ok v) =>
      if attachmentStateReached state v then some (.ok ())
      else waitForAttachmentStateLoop t fuel state steps (iter + 1)

/-- `WaitForAttachmentState` (cloud.go:624-665): 13 backoff steps. -/
def waitForAttachmentState
    (t : Nat → Nat → Except AwsError DescribeVolumesOutput) (fuel : Nat)
    (state : String) : Option (Except CloudError Unit) :=
  waitForAttachmentStateLoop t fuel state 13 0

/-- The device handed out by the device manager (`dm.NewDevice`); modelled
from the spec's Device Allocator contract (pkg/cloud/devicemanager is not
under src/): a device path plus the `IsAlreadyAssigned` flag. -/
structure Device where
  path : String := ""
  isAlreadyAssigned : Bool := false
deriving DecidableEq, Repr

/-- The environment consumed by one `AttachDisk` call: the
DescribeInstances pages of `getInstance`, the device-manager allocation
result (modelled from the spec, an error or a `Device`), whether the
dynamic type of the `cloud.ec2` field is the concrete `*ec2.EC2` SDK client
(the type assertion `c.ec2.(*ec2.EC2)` at cloud.go:558 panics otherwise),
the single AttachVolume response, and the DescribeVolumes response rows of
the wait-for-attached poll. -/
structure AttachEnv where
  describeInstances : Nat → Except AwsError DescribeInstancesOutput
  newDevice : Except String Device
  isConcreteSdkClient : Bool
  attachVolume : Except AwsError Unit
  describeVolumesAt : Nat → Nat → Except AwsError DescribeVolumesOutput

/-- The tail of `AttachDisk` (cloud.go:571-581) shared by the fresh-attach
and already-assigned paths: wait for the "attached" state; on failure the
device is tainted (`device.Taint()`, cloud.go:573) and the error returned;
on success the device path is returned. The second component records
whether the device ended up tainted. -/
def attachWait (env : AttachEnv) (fuel : Nat) (device : Device) :
    Option (RunResult String × Bool) :=
  match waitForAttachmentState env.describeVolumesAt fuel "attached" with
  | none => none
  | some (.error e) => some (.err e, true)
  | some (.ok _) => some (.ok device.path, false)

/-- `AttachDisk` (cloud.go:540-582), returning the result together with
whether the device was tainted. Resolve the instance; allocate a device;
when the device is not already assigned, assert the concrete SDK client
type (panic on any other transport) and issue AttachVolume — a
`VolumeInUse` failure returns `ErrAlreadyExists`, any other failure returns
the wrapped error with the device still untainted; then wait for the
"attached" state. -/
def attachDisk (env : AttachEnv) (fuel : Nat) :
    Option (RunResult String × Bool) :=
  match getInstance env.describeInstances fuel with
  | none => none
  | some (.error e) => some (.err e, false)
  | some (.ok _) =>
    match env.newDevice with
    | .error m => some (.err (.message m), false)
    | .ok device =>
      if device.isAlreadyAssigned then attachWait env fuel device
      else if ¬ env.isConcreteSdkClient then some (.panicked, false)
      else
        match env.attachVolume with
        | .error e =>
          if e.code = "VolumeInUse" then some (.err .errAlreadyExists, false)
          else some (.err (.wrapped "could not attach volume" e), false)
        | .ok _ => attachWait env fuel device

/-- Shifting the modification-response environment by one call is the same
as starting the poll one call later. -/
theorem waitForVolumeSizeLoop_shift
    (t : Nat → Except AwsError DescribeVolumesModificationsOutput)
    (steps : Nat) : ∀ call,
    waitForVolumeSizeLoop (fun n => t (n + 1)) steps call =
      waitForVolumeSizeLoop t steps (call + 1) := by
  induction steps with
  | zero => intro call; rfl
  | succ k ih =>
    intro call
    simp only [waitForVolumeSizeLoop]
    cases getLatestVolumeModification (t (call + 1)) with
    | error e => rfl
    | ok m =>
      by_cases hd : volumeModificationDone m
      · simp [hd]
      · simp [hd, ih]

/-- C2: for every volume whose current size in GiB is at least
`roundUpGiB newSizeBytes`, `ResizeDisk` returns the current size unchanged
and issues zero ModifyVolume calls. -/
theorem resizeDisk_noop_when_current_size_suffices
    (env : ResizeEnv) (fuel : Nat) (newSizeBytes : Int) (v : Volume)
    (hvol : getVolume env.describeVolumes fuel = some (Except.ok v))
    (hsize : roundUpGiB newSizeBytes ≤ int64Value v.size) :
    resizeDisk env fuel newSizeBytes =
      some (RunResult.ok (int64Value v.size), 0) := by
  simp only [resizeDisk, hvol, ge_iff_le, hsize, if_true]

/-- Environment for the C2 witness: one volume of 100 GiB. -/
def resizeEnvNoop : ResizeEnv :=
  { describeVolumes := fun _ => .ok { volumes := [{ size := some 100 }] }
    modifyVolume := .ok {}
    describeModifications := fun _ => .ok {} }

/-- Witness for C2: resizing a 100 GiB volume to 50 GiB returns 100 and
performs no modify call. -/
theorem resizeDisk_noop_witness :
    resizeDisk resizeEnvNoop 1 (50 * giBBytes) =
      some (RunResult.ok 100, 0) :=
  resizeDisk_noop_when_current_size_suffices resizeEnvNoop 1 (50 * giBBytes)
    { size := some 100 } (by rfl) (by decide)

/-- C3: when ModifyVolume fails with the `IncorrectModificationState`
provider code (on a genuine grow), `ResizeDisk` does not fail: it fetches
the latest modification record and proceeds exactly as if that record had
been returned by its own ModifyVolume call (same result as an environment
whose modify call succeeded with that record, modulo the one consumed
DescribeVolumesModifications response); a terminal ("completed" or
"optimizing") record's target size is returned immediately, and otherwise
the latest modification is polled for at most 20 backoff steps. -/
theorem resizeDisk_incorrectModificationState_recovery
    (env : ResizeEnv) (fuel : Nat) (newSizeBytes : Int) (v : Volume)
    (e : AwsError) (m : VolumeModification)
    (hvol : getVolume env.describeVolumes fuel = some (Except.ok v))
    (hgrow : int64Value v.size < roundUpGiB newSizeBytes)
    (herr : env.modifyVolume = Except.error e)
    (hcode : e.code = "IncorrectModificationState")
    (hrec : getLatestVolumeModification (env.describeModifications 0) =
      Except.ok m) :
    resizeDisk env fuel newSizeBytes =
      resizeDisk
        { env with
          modifyVolume := Except.ok { volumeModification := some m }
          describeModifications := fun n => env.describeModifications (n + 1) }
        fuel newSizeBytes ∧
    (volumeModificationDone m = true →
      resizeDisk env fuel newSizeBytes =
        some (RunResult.ok (int64Value m.targetSize), 1)) ∧
    (volumeModificationDone m = false →
      resizeDisk env fuel newSizeBytes =
        some (exceptToRun (waitForVolumeSizeLoop env.describeModifications 20 1), 1)) := by
  have hnotle : ¬ int64Value v.size ≥ roundUpGiB newSizeBytes := by omega
  have hlhs : resizeDisk env fuel newSizeBytes =
      some (resizeFromMod env.describeModifications m 1, 1) := by
    simp only [resizeDisk, hvol, hnotle, if_false, resizeAfterModify, herr,
      isAWSErrorIncorrectModification, isAWSError, hcode, hrec]
    simp
  refine ⟨?_, ?_, ?_⟩
  · rw [hlhs]
    simp only [resizeDisk, hvol, hnotle, if_false, resizeAfterModify]
    simp only [resizeFromMod, waitForVolumeSize, waitForVolumeSizeLoop_shift]
  · intro hd
    rw [hlhs]
    simp only [resizeFromMod, hd, if_true, waitForVolumeSize]
  · intro hd
    rw [hlhs]
    simp only [resizeFromMod, hd, waitForVolumeSize]
    simp

/-- Environment for the C3 witness: a 10 GiB volume, a ModifyVolume call
rejected with `IncorrectModificationState`, and an in-flight modification
record already "completed" at 20 GiB. -/
def resizeEnvInFlight : ResizeEnv :=
  { describeVolumes := fun _ => .ok { volumes := [{ size := some 10 }] }
    modifyVolume := .error { code := "IncorrectModificationState" }
    describeModifications := fun _ =>
      .ok { volumesModifications :=
        [{ modificationState := some "completed", targetSize := some 20 }] } }

/-- Witness for C3: the rejected resize recovers the completed in-flight
modification and returns its 20 GiB target size. -/
theorem resizeDisk_incorrectModificationState_witness :
    resizeDisk resizeEnvInFlight 1 (20 * giBBytes) =
      some (RunResult.ok 20, 1) :=
  (resizeDisk_incorrectModificationState_recovery resizeEnvInFlight 1
    (20 * giBBytes) { size := some 10 }
    { code := "IncorrectModificationState" }
    { modificationState := some "completed", targetSize := some 20 }
    (by rfl) (by decide) (by rfl) (by rfl) (by rfl)).2.1 (by rfl)

/-- Environment for C7: the volume is 10 GiB, ModifyVolume succeeds (nil
error) but its response carries no `VolumeModification` record. -/
def resizeEnvNilModification : ResizeEnv :=
  { describeVolumes := fun _ => .ok { volumes := [{ size := some 10 }] }
    modifyVolume := .ok { volumeModification := none }
    describeModifications := fun _ => .ok {} }

/-- C7: growing a 10 GiB volume to 20 GiB when ModifyVolume succeeds with a
response carrying no `VolumeModification` record makes `ResizeDisk`
dereference the nil `mod` pointer at `aws.StringValue(mod.ModificationState)`
(cloud.go:1100) and panic instead of returning an error. -/
theorem resizeDisk_nil_modification_panics :
    resizeDisk resizeEnvNilModification 1 (20 * giBBytes) =
      some (RunResult.panicked, 1) := by
  decide

/-- The sequential min/max clamp of cloud.go:452-457 equals the closed-form
clamp for io1/io2. -/
theorem createTypeAndIops_io_clamp (vt : String) (capacityGiB iopsPerGB : Int)
    (hio : vt = "io1" ∨ vt = "io2") :
    createTypeAndIops vt capacityGiB iopsPerGB =
      Except.ok (vt, max MinTotalIOPS (min MaxTotalIOPS (capacityGiB * iopsPerGB))) := by
  have harith : ∀ i0 : Int,
      (if (if i0 < MinTotalIOPS then MinTotalIOPS else i0) > MaxTotalIOPS
        then MaxTotalIOPS
        else if i0 < MinTotalIOPS then MinTotalIOPS else i0) =
      max MinTotalIOPS (min MaxTotalIOPS i0) := by
    intro i0
    simp only [MinTotalIOPS, MaxTotalIOPS]
    split_ifs <;> omega
  rcases hio with h | h <;> subst h <;>
    simp only [createTypeAndIops, harith] <;> rfl

/-- C4: for every io1/io2 DiskOptions, whenever `CreateDisk` reaches the
point of sending a create request, that request carries exactly
`clamp(bytesToGiB(CapacityBytes) * IOPSPerGB, MinTotalIOPS, MaxTotalIOPS)`
as its IOPS — for all capacity/rate combinations, the unclamped product is
never sent. -/
theorem createDisk_io_iops_clamped
    (opts : DiskOptions) (azResp : Except AwsError (List (Option String)))
    (req : CreateVolumeInput)
    (hio : opts.volumeType = "io1" ∨ opts.volumeType = "io2")
    (hreq : createDiskRequest opts azResp = RunResult.ok req) :
    req.iops = some (max MinTotalIOPS (min MaxTotalIOPS
      (bytesToGiB opts.capacityBytes * opts.iopsPerGB))) := by
  have hpos : max MinTotalIOPS (min MaxTotalIOPS
      (bytesToGiB opts.capacityBytes * opts.iopsPerGB)) > 0 := by
    have h1 : (MinTotalIOPS : Int) ≤ max MinTotalIOPS (min MaxTotalIOPS
        (bytesToGiB opts.capacityBytes * opts.iopsPerGB)) := le_max_left _ _
    simp only [MinTotalIOPS] at h1 ⊢
    omega
  simp only [createDiskRequest, createTypeAndIops_io_clamp _ _ _ hio] at hreq
  cases hz : (if opts.availabilityZone = "" then
      match randomAvailabilityZone azResp with
      | .ok z => RunResult.ok z
      | .err _ => RunResult.err (.message "failed to get availability zone")
      | .panicked => RunResult.panicked
    else RunResult.ok opts.availabilityZone) with
  | ok zone =>
    rw [hz] at hreq
    simp only [hpos, if_true] at hreq
    split_ifs at hreq <;> (cases hreq; rfl)
  | err e => rw [hz] at hreq; cases hreq
  | panicked => rw [hz] at hreq; cases hreq

/-- Options for the C4 witness: a 400 GiB io1 volume at 100 IOPS/GiB, whose
raw product 40000 overflows `MaxTotalIOPS`. -/
def io1CreateOpts : DiskOptions :=
  { capacityBytes := 400 * giBBytes
    volumeType := "io1"
    iopsPerGB := 100
    availabilityZone := "us-test-1a" }

/-- The request `CreateDisk` sends for `io1CreateOpts`. -/
def io1CreateReq : CreateVolumeInput :=
  { availabilityZone := some "us-test-1a"
    size := some 400
    volumeType := some "io1"
    encrypted := some false
    iops := some 20000 }

/-- Witness for C4: the io1 request for 400 GiB at 100 IOPS/GiB carries
IOPS clamped to 20000, not the raw product 40000. -/
theorem createDisk_io_iops_witness : io1CreateReq.iops = some 20000 := by
  have h := createDisk_io_iops_clamped io1CreateOpts (Except.ok []) io1CreateReq
    (Or.inl rfl) (by decide)
  rw [h]
  decide

/-- C5: `GetDiskByName` fails with `ErrMultiDisks` when the name-tag filter
matches two or more volumes, with `ErrNotFound` when it matches zero, with
the distinct `ErrDiskExistsDiffSize` (not `ErrNotFound`) when it matches
exactly one volume whose size in GiB differs from
`bytesToGiB capacityBytes`, and otherwise returns that volume's `Disk`. -/
theorem getDiskByName_cases
    (t : Nat → Except AwsError DescribeVolumesOutput) (fuel : Nat)
    (capacityBytes : Int) (vols : List Volume)
    (hagg : getVolumeLoop t fuel 0 [] = some (Except.ok vols)) :
    (2 ≤ vols.length →
      getDiskByName t fuel capacityBytes =
        some (Except.error CloudError.errMultiDisks)) ∧
    (vols = [] →
      getDiskByName t fuel capacityBytes =
        some (Except.error CloudError.errNotFound)) ∧
    (∀ v, vols = [v] → int64Value v.size ≠ bytesToGiB capacityBytes →
      getDiskByName t fuel capacityBytes =
        some (Except.error CloudError.errDiskExistsDiffSize)) ∧
    (∀ v, vols = [v] → int64Value v.size = bytesToGiB capacityBytes →
      getDiskByName t fuel capacityBytes =
        some (Except.ok
          { volumeID := stringValue v.volumeId
            capacityGiB := int64Value v.size
            availabilityZone := stringValue v.availabilityZone
            snapshotID := stringValue v.snapshotId })) := by
  refine ⟨?_, ?_, ?_, ?_⟩
  · intro hlen
    have hgt : vols.length > 1 := by omega
    simp only [getDiskByName, getVolume, hagg, hgt, if_true]
  · intro hnil
    subst hnil
    simp only [getDiskByName, getVolume, hagg]
    rfl
  · intro v hone hne
    subst hone
    simp only [getDiskByName, getVolume, hagg]
    simp [hne]
  · intro v hone heq
    subst hone
    simp only [getDiskByName, getVolume, hagg]
    simp [heq]

/-- Transport for the C5 witness: one page carrying two volumes that share
the name tag. -/
def describeVolumesTwoMatches (_n : Nat) :
    Except AwsError DescribeVolumesOutput :=
  .ok { volumes := [{ volumeId := some "vol-1", size := some 20 },
                    { volumeId := some "vol-2", size := some 20 }] }

/-- Witness for C5: two volumes sharing the name tag make `GetDiskByName`
fail with `ErrMultiDisks`. -/
theorem getDiskByName_witness :
    getDiskByName describeVolumesTwoMatches 1 (20 * giBBytes) =
      some (Except.error CloudError.errMultiDisks) :=
  (getDiskByName_cases describeVolumesTwoMatches 1 (20 * giBBytes)
    [{ volumeId := some "vol-1", size := some 20 },
     { volumeId := some "vol-2", size := some 20 }] (by rfl)).1 (by decide)

/-- C6: `DeleteDisk` maps a provider "volume not found" error (and
`DeleteSnapshot` a provider "snapshot not found" error) to the bare
`ErrNotFound` sentinel rather than a wrapped hard failure; any other
provider error is wrapped with operation context; on provider success both
return `true` with no error. -/
theorem delete_notFound_mapping (e : AwsError) :
    (isAWSErrorVolumeNotFound e = true →
      deleteDisk (Except.error e) = Except.error CloudError.errNotFound) ∧
    (isAWSErrorVolumeNotFound e = false →
      deleteDisk (Except.error e) = Except.error
        (CloudError.wrapped "DeleteDisk could not delete volume" e)) ∧
    deleteDisk (Except.ok ()) = Except.ok true ∧
    (isAWSErrorSnapshotNotFound e = true →
      deleteSnapshot (Except.error e) = Except.error CloudError.errNotFound) ∧
    (isAWSErrorSnapshotNotFound e = false →
      deleteSnapshot (Except.error e) = Except.error
        (CloudError.wrapped "DeleteSnapshot could not delete volume" e)) ∧
    deleteSnapshot (Except.ok ()) = Except.ok true := by
  refine ⟨?_, ?_, rfl, ?_, ?_, rfl⟩ <;>
    intro h <;> simp [deleteDisk, deleteSnapshot, h]

/-- Witness for C6: deleting an already-deleted volume returns the
`ErrNotFound` signal, not a wrapped hard error. -/
theorem delete_notFound_witness :
    deleteDisk (Except.error { code := "InvalidVolume.NotFound" }) =
      Except.error CloudError.errNotFound :=
  (delete_notFound_mapping { code := "InvalidVolume.NotFound" }).1 (by decide)

/-- C8: `ListSnapshots` fails with `ErrInvalidMaxResults` for every
`maxResults` in {1,2,3,4} without issuing any provider call, and for
`maxResults = 0` or `maxResults ≥ 5` never returns `ErrInvalidMaxResults`
and does issue the DescribeSnapshots call. -/
theorem listSnapshots_maxResults_validation
    (resp : Except AwsError Ec2ListSnapshotsResponse) (maxResults : Int) :
    (1 ≤ maxResults → maxResults ≤ 4 →
      listSnapshotsOp resp maxResults =
        (Except.error CloudError.errInvalidMaxResults, 0)) ∧
    (maxResults = 0 ∨ 5 ≤ maxResults →
      (listSnapshotsOp resp maxResults).1 ≠
        Except.error CloudError.errInvalidMaxResults ∧
      (listSnapshotsOp resp maxResults).2 = 1) := by
  constructor
  · intro h1 h4
    have hc : maxResults > 0 ∧ maxResults < 5 := by omega
    simp only [listSnapshotsOp, hc, and_self, if_true]
  · intro hok
    have hc : ¬ (maxResults > 0 ∧ maxResults < 5) := by omega
    simp only [listSnapshotsOp, hc, if_false]
    cases resp with
    | error e => simp
    | ok page =>
      by_cases hempty : (page.snapshots.map ec2SnapshotResponseToStruct).isEmpty <;>
        simp [hempty]

/-- Witness for C8: `maxResults = 3` is rejected with
`ErrInvalidMaxResults` and zero provider calls. -/
theorem listSnapshots_maxResults_witness :
    listSnapshotsOp (Except.ok {}) 3 =
      (Except.error CloudError.errInvalidMaxResults, 0) :=
  (listSnapshots_maxResults_validation (Except.ok {}) 3).1 (by decide) (by decide)

/-- C9: for every attach environment whose EC2 transport is not the
concrete `*ec2.EC2` SDK client, `AttachDisk` on a pair whose device is not
already assigned panics at the `c.ec2.(*ec2.EC2)` type assertion
(cloud.go:558) instead of returning an error. -/
theorem attachDisk_non_sdk_client_panics
    (env : AttachEnv) (fuel : Nat) (inst : Ec2Instance) (d : Device)
    (hinst : getInstance env.describeInstances fuel = some (Except.ok inst))
    (hdev : env.newDevice = Except.ok d)
    (hfresh : d.isAlreadyAssigned = false)
    (hclient : env.isConcreteSdkClient = false) :
    attachDisk env fuel = some (RunResult.panicked, false) := by
  simp only [attachDisk, hinst, hdev, hfresh, hclient]
  simp

/-- Environment for the C9 witness: a mock (non-SDK) transport, a found
instance and a freshly allocated device. -/
def attachEnvMockClient : AttachEnv :=
  { describeInstances := fun _ => .ok { reservations := [{ instances := [{}] }] }
    newDevice := .ok { path := "/dev/xvdba", isAlreadyAssigned := false }
    isConcreteSdkClient := false
    attachVolume := .ok ()
    describeVolumesAt := fun _ _ => .ok {} }

/-- Witness for C9: the mocked transport makes the fresh-attach path
panic. -/
theorem attachDisk_non_sdk_client_witness :
    attachDisk attachEnvMockClient 1 = some (RunResult.panicked, false) :=
  attachDisk_non_sdk_client_panics attachEnvMockClient 1 {}
    { path := "/dev/xvdba", isAlreadyAssigned := false }
    (by rfl) (by rfl) (by rfl) (by rfl)

/-- C10: when `DiskOptions.AvailabilityZone` is empty and the provider's
DescribeAvailabilityZones call succeeds with an empty zone list,
`CreateDisk` panics (index out of range on `zones[0]` in
`randomAvailabilityZone`) rather than returning an error; when the listing
is non-empty, the zone placed in the create request is always its first
element. -/
theorem createDisk_zone_fallback
    (opts : DiskOptions) (z : String) (rest : List (Option String))
    (hvt : opts.volumeType ∈ ["io1", "io2", "gp2", "st2", "standard", ""])
    (haz : opts.availabilityZone = "") :
    createDiskRequest opts (Except.ok []) = RunResult.panicked ∧
    (∀ req,
      createDiskRequest opts (Except.ok (some z :: rest)) = RunResult.ok req →
      req.availabilityZone = some z) := by
  have hvt2 : opts.volumeType = "io1" ∨ opts.volumeType = "io2" ∨
      opts.volumeType = "gp2" ∨ opts.volumeType = "st2" ∨
      opts.volumeType = "standard" ∨ opts.volumeType = "" := by
    simpa using hvt
  have hty : ∃ p, createTypeAndIops opts.volumeType
      (bytesToGiB opts.capacityBytes) opts.iopsPerGB = Except.ok p := by
    rcases hvt2 with h | h | h | h | h | h
    · exact ⟨_, createTypeAndIops_io_clamp _ _ _ (Or.inl h)⟩
    · exact ⟨_, createTypeAndIops_io_clamp _ _ _ (Or.inr h)⟩
    · exact ⟨(opts.volumeType, 0), by rw [h]; rfl⟩
    · exact ⟨(opts.volumeType, 0), by rw [h]; rfl⟩
    · exact ⟨(opts.volumeType, 0), by rw [h]; rfl⟩
    · exact ⟨("gp2", 0), by rw [h]; rfl⟩
  obtain ⟨⟨ct, io⟩, hp⟩ := hty
  constructor
  · simp [createDiskRequest, hp, haz, randomAvailabilityZone, derefZoneNames]
  · intro req hreq
    simp only [createDiskRequest, hp, haz, randomAvailabilityZone,
      derefZoneNames] at hreq
    cases hdr : derefZoneNames rest with
    | none =>
      rw [hdr] at hreq
      simp at hreq
    | some zs =>
      rw [hdr] at hreq
      simp only [Option.map_some, if_true] at hreq
      split_ifs at hreq <;> (cases hreq; rfl)

/-- Options for the C10 witness: defaults everywhere, so the volume type
defaults to gp2 and the zone must be resolved from the provider. -/
def createOptsDefaultZone : DiskOptions := { capacityBytes := 4 * giBBytes }

/-- Witness for C10: an empty zone listing makes the create path panic. -/
theorem createDisk_zone_fallback_witness :
    createDiskRequest createOptsDefaultZone (Except.ok []) =
      RunResult.panicked :=
  (createDisk_zone_fallback createOptsDefaultZone "us-test-1a" []
    (by decide) rfl).1

/-- Environment for the C1 counterexample and the fresh-attach analysis:
the instance resolves, the device manager hands out a fresh (not already
assigned) device, the transport is the concrete SDK client, and the
AttachVolume call fails with a non-VolumeInUse provider error. -/
def attachEnvFreshFailure : AttachEnv :=
  { describeInstances := fun _ => .ok { reservations := [{ instances := [{}] }] }
    newDevice := .ok { path := "/dev/xvdba", isAlreadyAssigned := false }
    isConcreteSdkClient := true
    attachVolume := .error { code := "AttachmentLimitExceeded" }
    describeVolumesAt := fun _ _ => .ok {} }

/-- C1 counterexample: a fresh attach call failing with the provider code
`AttachmentLimitExceeded` (not `VolumeInUse`) returns the wrapped error
with the device NOT tainted (second component `false`), contradicting the
claim that the device is marked tainted before the wrapped error is
returned. -/
theorem attachDisk_fresh_failure_not_tainted :
    attachDisk attachEnvFreshFailure 1 =
      some (RunResult.err (CloudError.wrapped "could not attach volume"
        { code := "AttachmentLimitExceeded", msg := "" }), false) := by
  decide

/-- C1 (amended): when a fresh provider attach call is required and fails,
a `VolumeInUse` code returns `ErrAlreadyExists` and any other code returns
the wrapped error, in both cases with the device left untainted (the only
taint site in `AttachDisk` is a wait-for-attached failure,
cloud.go:571-575). -/
theorem attachDisk_fresh_attach_failure
    (env : AttachEnv) (fuel : Nat) (inst : Ec2Instance) (d : Device)
    (e : AwsError)
    (hinst : getInstance env.describeInstances fuel = some (Except.ok inst))
    (hdev : env.newDevice = Except.ok d)
    (hfresh : d.isAlreadyAssigned = false)
    (hclient : env.isConcreteSdkClient = true)
    (hatt : env.attachVolume = Except.error e) :
    (e.code ≠ "VolumeInUse" →
      attachDisk env fuel =
        some (RunResult.err (CloudError.wrapped "could not attach volume" e),
          false)) ∧
    (e.code = "VolumeInUse" →
      attachDisk env fuel =
        some (RunResult.err CloudError.errAlreadyExists, false)) := by
  constructor
  · intro hne
    simp only [attachDisk, hinst, hdev, hfresh, hclient, hatt]
    simp [hne]
  · intro heq
    simp only [attachDisk, hinst, hdev, hfresh, hclient, hatt]
    simp [heq]

/-- Environment for the C1 witness: as `attachEnvFreshFailure` but the
provider reports `VolumeInUse`. -/
def attachEnvVolumeInUse : AttachEnv :=
  { describeInstances := fun _ => .ok { reservations := [{ instances := [{}] }] }
    newDevice := .ok { path := "/dev/xvdba", isAlreadyAssigned := false }
    isConcreteSdkClient := true
    attachVolume := .error { code := "VolumeInUse" }
    describeVolumesAt := fun _ _ => .ok {} }

/-- Witness for the amended C1: the `VolumeInUse` failure surfaces as
`ErrAlreadyExists`, device untainted. -/
theorem attachDisk_fresh_attach_failure_witness :
    attachDisk attachEnvVolumeInUse 1 =
      some (RunResult.err CloudError.errAlreadyExists, false) :=
  (attachDisk_fresh_attach_failure attachEnvVolumeInUse 1 {}
    { path := "/dev/xvdba", isAlreadyAssigned := false }
    { code := "VolumeInUse" }
    (by rfl) (by rfl) (by rfl) (by rfl) (by rfl)).2 (by rfl)
